import Mathlib

/-!
Shallow embedding of the power-bank gateway protocol codec
(`internal/protocol/protocol.go`): the XOR checksum, the outbound
command builder `CreateCommand` and the inbound dispatcher
`HandleIncoming`, together with theorems settling the specification
claims about them.

Bytes are modelled as `Nat` values below 256; Go byte slices become
`List Nat`; Go strings of bytes (the station identity) become
`List Nat` as well.  Go `uint16` arithmetic is modelled with an
explicit `% 65536`.  A Go function that can hit a runtime error is
modelled with `GoResult`: `GoResult.crash` for a Go runtime error that
kills the process (for example a slice-bounds violation), `GoResult.ok`
for a normal return.
-/

/-- Result of running a Go function that may hit a runtime error
(a slice-bounds violation aborts the process). -/
inductive GoResult (α : Type) where
  | crash : GoResult α
  | ok : α → GoResult α
deriving DecidableEq

/-- Go function `xorChecksum` of `protocol.go`: XOR of all bytes,
starting from `0x00`. -/
def xorChecksum (data : List Nat) : Nat :=
  data.foldl Nat.xor 0

/-- Go function `validateChecksum` of `protocol.go`: the checksum byte
at offset 4 must equal the XOR of the bytes after the 9-byte header
(`data[9:]`); a frame with nothing after the header must carry
checksum `0x00`.  Fewer than 5 bytes fail outright. -/
def validateChecksum (data : List Nat) : Bool :=
  if data.length < 5 then false
  else
    let expected := data.getD 4 0
    if 9 < data.length then expected == xorChecksum (data.drop 9)
    else expected == 0x00

/-- Byte list of a Go string literal (each character one byte; all the
literals in `protocol.go` are ASCII). -/
def strBytes (s : String) : List Nat :=
  s.data.map Char.toNat

/-- Drop a single trailing NUL byte, as the login handler of
`protocol.go` does to the box id (the
`boxIDBytes[len(boxIDBytes)-1] == 0x00` test). -/
def stripTrailingNul (l : List Nat) : List Nat :=
  match l.getLast? with
  | some 0 => l.dropLast
  | _ => l

/-- Model of the statement `respBytes[4] = xorChecksum(respBytes[9:])`
of `protocol.go`: patch the checksum byte of an assembled reply. -/
def setChecksum (l : List Nat) : List Nat :=
  l.set 4 (xorChecksum (l.drop 9))

/-- Value of one hexadecimal digit, as accepted by Go
`encoding/hex`. -/
def hexDigitVal (c : Char) : Option Nat :=
  if '0' ≤ c ∧ c ≤ '9' then some (c.toNat - '0'.toNat)
  else if 'a' ≤ c ∧ c ≤ 'f' then some (c.toNat - 'a'.toNat + 10)
  else if 'A' ≤ c ∧ c ≤ 'F' then some (c.toNat - 'A'.toNat + 10)
  else none

/-- Go `hex.DecodeString`: fails on an odd-length string or on a
non-hexadecimal character (the caller in `protocol.go` only checks
`err != nil`, so the partially decoded bytes Go also returns are
irrelevant). -/
def hexDecode : List Char → Option (List Nat)
  | [] => some []
  | [_] => none
  | c1 :: c2 :: rest =>
    match hexDigitVal c1, hexDigitVal c2, hexDecode rest with
    | some h, some l, some tail => some ((h * 16 + l) :: tail)
    | _, _, _ => none

/-- Value of a non-empty all-digit character list; `none` when empty
or containing a non-digit. -/
def decDigitsVal (cs : List Char) : Option Nat :=
  if cs = [] then none
  else if cs.all (fun c => c.isDigit) then
    some (cs.foldl (fun a c => a * 10 + (c.toNat - '0'.toNat)) 0)
  else none

/-- Go `strconv.Atoi` on a 64-bit platform: optional sign followed by
decimal digits; an error (modelled as `none`) when empty, malformed or
out of the `int64` range. -/
def atoi (s : String) : Option Int :=
  match s.data with
  | '+' :: rest =>
    match decDigitsVal rest with
    | some v => if v ≤ 9223372036854775807 then some (v : Int) else none
    | none => none
  | '-' :: rest =>
    match decDigitsVal rest with
    | some v => if v ≤ 9223372036854775808 then some (-(v : Int)) else none
    | none => none
  | cs =>
    match decDigitsVal cs with
    | some v => if v ≤ 9223372036854775807 then some (v : Int) else none
    | none => none

/-- Go conversion `byte(i)` applied to an `int`: truncation to the low
8 bits. -/
def goByte (i : Int) : Nat :=
  (i % 256).toNat

/-- The `switch cmd` block of `CreateCommand` in `protocol.go`:
opcode byte and payload bytes for a symbolic command name, validating
the slot / level / interval parameter with `strconv.Atoi`; `none`
models the `return nil` taken for unknown commands and invalid
parameters. -/
def commandOpcodePayload (cmd slotStr : String) : Option (Nat × List Nat) :=
  if cmd = "heartbeat" then some (0x61, [])
  else if cmd = "query_fw" then some (0x62, [])
  else if cmd = "restart" then some (0x67, [])
  else if cmd = "query_iccid" then some (0x69, [])
  else if cmd = "voice_get" then some (0x77, [])
  else if cmd = "query_power_bank" then some (0x64, [])
  else if cmd = "rent" then
    match atoi slotStr with
    | some slotInt =>
      if 1 ≤ slotInt ∧ slotInt ≤ 255 then some (0x65, [goByte slotInt])
      else none
    | none => none
  else if cmd = "eject" then
    match atoi slotStr with
    | some slotInt =>
      if 1 ≤ slotInt ∧ slotInt ≤ 255 then some (0x80, [goByte slotInt])
      else none
    | none => none
  else if cmd = "voice_set" then
    match atoi slotStr with
    | some level =>
      if 0 ≤ level ∧ level ≤ 15 then some (0x70, [goByte level])
      else none
    | none => none
  else if cmd = "set_server" then
    match atoi slotStr with
    | some interval =>
      if 0 < interval then
        let addressBytes := strBytes "127.0.0.1" ++ [0x00]
        let portBytes := strBytes "9000" ++ [0x00]
        some (0x63,
          [addressBytes.length / 256 % 256, addressBytes.length % 256]
          ++ addressBytes
          ++ [portBytes.length / 256 % 256, portBytes.length % 256]
          ++ portBytes
          ++ [goByte interval])
      else none
    | none => none
  else none

/-- Go function `CreateCommand` of `protocol.go`: decode the 4-byte
session token from hex, run the command switch
(`commandOpcodePayload`) to obtain the opcode byte and the payload,
and assemble the frame `packLen(2, big endian) ++ opcode ++ version
0x01 ++ checksum ++ token ++ payload`, where `packLen` is the `uint16`
`7 + len(payload)` and the checksum is the XOR of the payload bytes
(`0x00` when the payload is empty). -/
def CreateCommand (cmd tokenHex slotStr : String) : Option (List Nat) :=
  match hexDecode tokenHex.data with
  | none => none
  | some token =>
    if token.length ≠ 4 then none
    else
      match commandOpcodePayload cmd slotStr with
      | none => none
      | some (cmdByte, payload) =>
        let packLen := (7 + payload.length) % 65536
        some ([packLen / 256, packLen % 256, cmdByte, 0x01,
               if 0 < payload.length then xorChecksum payload else 0x00]
              ++ token ++ payload)

/-- Go function `HandleIncoming` of `protocol.go`.

The argument `data` is the received byte slice (`buf[:n]` in
`main.go`); `spare` is the rest of the underlying read buffer past
`len(data)` up to its capacity (1024 bytes in `main.go`).  The spare
bytes matter only for the token slice `data[5:9]`, which Go allows to
extend past the length (but not the capacity) of a slice; it aborts
(`GoResult.crash`) when the capacity is below 9.

The login slice `data[17 : 17+boxIDLen]` computes `17+boxIDLen` in
`uint16` arithmetic (both the guard `len(data) >= int(17+boxIDLen)`
and the slice bound), so a `boxIDLen` of at least `65519` wraps the
bound below 17 and the slice aborts with a bounds violation,
modelled as `GoResult.crash`.  The `ReqDataLen`/`ReqData` block of the
login handler only logs (its guard `len(data) > remainingPos+2` keeps
all its slices in range, using plain `int` arithmetic) and is elided.
The 8-byte power-bank identifier literals have length exactly 8, so
the pad/truncate loops around them are no-ops and are elided too. -/
def HandleIncoming (data spare : List Nat) : GoResult (Option (List Nat) × List Nat) :=
  if data.length < 7 then .ok (none, [])
  else if validateChecksum data = false then .ok (none, [])
  else if data.length + spare.length < 9 then .crash
  else
    let token := ((data ++ spare).drop 5).take 4
    let cmd := data.getD 2 0
    if cmd = 0x60 then
      let sid? : Option (List Nat) :=
        if 21 ≤ data.length then
          let boxIDLen := data.getD 15 0 * 256 + data.getD 16 0
          let hi := (17 + boxIDLen) % 65536
          if hi ≤ data.length then
            if hi < 17 then none
            else some (stripTrailingNul ((data.drop 17).take (hi - 17)))
          else some []
        else some []
      match sid? with
      | none => .crash
      | some stationID =>
        .ok (some (setChecksum ([0x00, 0x08, 0x60, 0x01, 0x01] ++ token ++ [0x01])),
             stationID)
    else if cmd = 0x61 then
      .ok (some data, [])
    else if cmd = 0x66 then
      if 18 ≤ data.length then
        let slot := data.getD 9 0
        .ok (some (setChecksum ([0x00, 0x09, 0x66, 0x01, 0x00] ++ token ++ [slot, 0x01])),
             [])
      else .ok (none, [])
    else if cmd = 0x62 then
      let fwVersionBytes := strBytes "RL1,H6,08,14" ++ [0x00]
      let fwLen := fwVersionBytes.length
      .ok (some (setChecksum
        ([(7 + 2 + fwLen) / 256, (7 + 2 + fwLen) % 256, 0x62, 0x01, 0x00]
          ++ token ++ [fwLen / 256, fwLen % 256] ++ fwVersionBytes)), [])
    else if cmd = 0x65 then
      if 10 ≤ data.length then
        let slot := data.getD 9 0
        let powerBankID := strBytes "RL1A|00d"
        .ok (some (setChecksum
          ([0x00, 0x11, 0x65, 0x01, 0x00] ++ token ++ [slot, 0x01] ++ powerBankID)), [])
      else .ok (none, [])
    else if cmd = 0x80 then
      if 10 ≤ data.length then
        let slot := data.getD 9 0
        let powerBankID := strBytes "RL1A|00d"
        .ok (some (setChecksum
          ([0x00, 0x11, 0x80, 0x01, 0x00] ++ token ++ [slot, 0x01] ++ powerBankID)), [])
      else .ok (none, [])
    else if cmd = 0x69 then
      let iccidBytes := strBytes "89860416121880245965" ++ [0x00]
      let iccidLen := iccidBytes.length
      .ok (some (setChecksum
        ([(7 + 2 + iccidLen) / 256, (7 + 2 + iccidLen) % 256, 0x69, 0x01, 0x00]
          ++ token ++ [iccidLen / 256, iccidLen % 256] ++ iccidBytes)), [])
    else if cmd = 0x77 then
      .ok (some (setChecksum ([0x00, 0x08, 0x77, 0x01, 0x00] ++ token ++ [0x0e])), [])
    else if cmd = 0x70 then
      if 10 ≤ data.length then
        .ok (some ([0x00, 0x07, 0x70, 0x01, 0x00] ++ token), [])
      else .ok (none, [])
    else if cmd = 0x64 then
      let powerBank1ID := strBytes "RL1H|001"
      let powerBank3ID := strBytes "RL1H|003"
      .ok (some (setChecksum
        ([0x00, 0x1c, 0x64, 0x01, 0x00] ++ token
          ++ [0x02, 0x01] ++ powerBank1ID ++ [0x04]
          ++ [0x03] ++ powerBank3ID ++ [0x02])), [])
    else if cmd = 0x67 then
      .ok (some ([0x00, 0x07, 0x67, 0x01, 0x00] ++ token), [])
    else if cmd = 0x63 then
      if 10 ≤ data.length then
        .ok (some ([0x00, 0x07, 0x63, 0x01, 0x00] ++ token), [])
      else .ok (none, [])
    else
      .ok (none, [])

/-- Opcodes of the dispatch table of `HandleIncoming`. -/
def inDispatchTable (c : Nat) : Bool :=
  c == 0x60 || c == 0x61 || c == 0x66 || c == 0x62 || c == 0x65 || c == 0x80 ||
  c == 0x69 || c == 0x77 || c == 0x70 || c == 0x64 || c == 0x67 || c == 0x63

/-- No-reply condition of claim C2, written from the claim's words:
too short, checksum byte differing from the XOR of the bytes after the
9-byte header (not `0x00` when there are none), opcode outside the
dispatch table, or minimum total length unmet (18 bytes for `0x66`,
10 bytes for `0x65`, `0x80`, `0x70`, `0x63`). -/
def claimC2Cond (data : List Nat) : Bool :=
  decide (data.length < 7)
  || (if 9 < data.length then !(data.getD 4 0 == xorChecksum (data.drop 9))
      else !(data.getD 4 0 == 0x00))
  || !(inDispatchTable (data.getD 2 0))
  || (data.getD 2 0 == 0x66 && decide (data.length < 18))
  || ((data.getD 2 0 == 0x65 || data.getD 2 0 == 0x80 || data.getD 2 0 == 0x70
       || data.getD 2 0 == 0x63) && decide (data.length < 10))

/-- Catalog mapping from symbolic command name to opcode (claim C4's
notion of "the original opcode" of a command). -/
def opcodeOfCmd (cmd : String) : Option Nat :=
  if cmd = "heartbeat" then some 0x61
  else if cmd = "query_fw" then some 0x62
  else if cmd = "restart" then some 0x67
  else if cmd = "query_iccid" then some 0x69
  else if cmd = "voice_get" then some 0x77
  else if cmd = "query_power_bank" then some 0x64
  else if cmd = "rent" then some 0x65
  else if cmd = "eject" then some 0x80
  else if cmd = "voice_set" then some 0x70
  else if cmd = "set_server" then some 0x63
  else none

/-- The fixed `set_server` payload built by `CreateCommand`:
2-byte length-prefixed NUL-terminated address `127.0.0.1`, 2-byte
length-prefixed NUL-terminated port `9000`, then the single
heartbeat-interval byte `byte(interval)`. -/
def setServerPayload (interval : Int) : List Nat :=
  [0x00, 0x0a] ++ strBytes "127.0.0.1" ++ [0x00]
  ++ [0x00, 0x05] ++ strBytes "9000" ++ [0x00]
  ++ [goByte interval]

/-- Overwriting the 2-byte big-endian length field at offsets 0 and 1
of a frame with the value `v` (claim C9's "regardless of the value of
the length field"). -/
def setLenField (v : Nat) (data : List Nat) : List Nat :=
  v / 256 % 256 :: v % 256 :: data.drop 2

/-- Panic-flag component of a `HandleIncoming` result. -/
def resultAborts : GoResult (Option (List Nat) × List Nat) → Bool
  | .crash => true
  | .ok _ => false

/-- Whether a `HandleIncoming` result carries a reply frame. -/
def resultHasReply : GoResult (Option (List Nat) × List Nat) → Bool
  | .ok (some _, _) => true
  | _ => false

/-- Identity component of a `HandleIncoming` result (`none` when the
call aborts). -/
def resultIdentity : GoResult (Option (List Nat) × List Nat) → Option (List Nat)
  | .ok (_, s) => some s
  | .crash => none

/-- Claim C1 (code bug): the spec promises that `HandleIncoming` never
crashes the process, but the 21-byte login frame below — checksum
valid, `boxIdLen` field `0xFFFF` — makes `17+boxIDLen` wrap in the
`uint16` arithmetic of `protocol.go`, and the slice
`data[17 : 17+boxIDLen]` (bounds 17 and 16) aborts with a Go runtime
slice-bounds violation, killing the process. -/
theorem loginOverflow_crash :
    validateChecksum
      [0x00, 0x15, 0x60, 0x01, 0x00, 0, 0, 0, 0,
       0, 0, 0, 0, 0, 0, 0xFF, 0xFF, 0, 0, 0, 0] = true
    ∧ HandleIncoming
        [0x00, 0x15, 0x60, 0x01, 0x00, 0, 0, 0, 0,
         0, 0, 0, 0, 0, 0, 0xFF, 0xFF, 0, 0, 0, 0] [] = .crash := by
  decide

/-- Claim C5: `CreateCommand "rent" "11223344" "5"` is exactly the
10-byte frame with length field 8, opcode `0x65`, version `0x01`,
checksum `0x05`, token `11 22 33 44` and payload `[0x05]`. -/
theorem rentFrame_concrete :
    CreateCommand "rent" "11223344" "5" =
      some [0x00, 0x08, 0x65, 0x01, 0x05, 0x11, 0x22, 0x33, 0x44, 0x05] := by
  decide

/-- Claim C2, counterexample: a checksum-valid 21-byte login frame
with `boxIdLen = 0xFFFF` falls in the claim's "in every other case a
reply frame is produced" region (its no-reply condition is false), yet
`HandleIncoming` produces no reply at all — it crashes on the wrapped
slice bound. -/
theorem noReplyCond_counterexample :
    claimC2Cond
      [0x00, 0x15, 0x60, 0x01, 0x02, 0, 0, 0, 0,
       2, 0, 0, 0, 0, 0, 0xFF, 0xFF, 0, 0, 0, 0] = false
    ∧ HandleIncoming
        [0x00, 0x15, 0x60, 0x01, 0x02, 0, 0, 0, 0,
         2, 0, 0, 0, 0, 0, 0xFF, 0xFF, 0, 0, 0, 0] [] = .crash := by
  decide

/-- Claim C3, counterexample: the heartbeat command frame has 9 bytes
but its length field is 7 — the length field is not the total number
of bytes of the produced frame (it excludes its own two bytes). -/
theorem lengthField_counterexample :
    CreateCommand "heartbeat" "11223344" "" =
      some [0x00, 0x07, 0x61, 0x01, 0x00, 0x11, 0x22, 0x33, 0x44]
    ∧ (0x00 * 256 + 0x07 : Nat) ≠
        [0x00, 0x07, 0x61, 0x01, 0x00, 0x11, 0x22, 0x33, 0x44].length := by
  decide

/-- Claim C7, counterexample: (a) a checksum-valid login frame with
`boxIdLen = 0xFFFF` gets no reply at all — the process crashes on the
wrapped slice bound; (b) a checksum-valid 20-byte login frame that
declares `boxIdLen = 1` and carries the box-id byte `0x41` in full
(`17 + 1 ≤ 20`) still yields the empty identity, because the handler
additionally requires at least 21 bytes before reading the box id. -/
theorem login_identity_counterexample :
    HandleIncoming
      [0x00, 0x15, 0x60, 0x01, 0x00, 1, 1, 1, 1,
       0, 0, 0, 0, 0, 0, 0xFF, 0xFF, 0, 0, 0, 0] [] = .crash
    ∧ HandleIncoming
        [0x00, 0x14, 0x60, 0x01, 0x40, 0, 0, 0, 0,
         0, 0, 0, 0, 0, 0, 0, 1, 65, 0, 0] []
        = .ok (some [0x00, 0x08, 0x60, 0x01, 0x01, 0, 0, 0, 0, 0x01], [])
    ∧ 17 + ([0x00, 0x14, 0x60, 0x01, 0x40, 0, 0, 0, 0,
             0, 0, 0, 0, 0, 0, 0, 1, 65, 0, 0].getD 15 0 * 256
            + [0x00, 0x14, 0x60, 0x01, 0x40, 0, 0, 0, 0,
               0, 0, 0, 0, 0, 0, 0, 1, 65, 0, 0].getD 16 0)
        ≤ [0x00, 0x14, 0x60, 0x01, 0x40, 0, 0, 0, 0,
           0, 0, 0, 0, 0, 0, 0, 1, 65, 0, 0].length := by
  decide

/-- Claim C9, counterexample: two checksum-valid heartbeat frames that
differ only in the length field produce different results — the
heartbeat reply echoes the input, length field included. -/
theorem lengthField_mismatch_counterexample :
    setLenField 8 [0x00, 0x07, 0x61, 0x01, 0x00, 1, 2, 3, 4] =
      [0x00, 0x08, 0x61, 0x01, 0x00, 1, 2, 3, 4]
    ∧ validateChecksum [0x00, 0x07, 0x61, 0x01, 0x00, 1, 2, 3, 4] = true
    ∧ inDispatchTable 0x61 = true
    ∧ HandleIncoming (setLenField 8 [0x00, 0x07, 0x61, 0x01, 0x00, 1, 2, 3, 4]) []
        ≠ HandleIncoming [0x00, 0x07, 0x61, 0x01, 0x00, 1, 2, 3, 4] [] := by
  decide

/-- Claim C8: on every checksum-valid frame of at least 7 bytes with
opcode `0x61` (heartbeat), read from a buffer of capacity at least 9,
`HandleIncoming` replies with the received bytes unchanged and an
empty identity. -/
theorem heartbeat_echo (data spare : List Nat)
    (h7 : 7 ≤ data.length)
    (hvc : validateChecksum data = true)
    (hcmd : data.getD 2 0 = 0x61)
    (hcap : 9 ≤ data.length + spare.length) :
    HandleIncoming data spare = .ok (some data, []) := by
  have h7' : ¬ data.length < 7 := by omega
  have hcap' : ¬ data.length + spare.length < 9 := by omega
  rw [List.getD_eq_getElem?_getD] at hcmd
  simp [HandleIncoming, h7', hvc, hcmd, hcap']

/-- Witness for claim C8 at the spec's end-to-end scenario 2 frame. -/
theorem heartbeat_echo_witness :
    HandleIncoming [0x00, 0x07, 0x61, 0x01, 0x00, 0x11, 0x22, 0x33, 0x44] [] =
      .ok (some [0x00, 0x07, 0x61, 0x01, 0x00, 0x11, 0x22, 0x33, 0x44], []) :=
  heartbeat_echo _ _ (by decide) (by decide) (by decide) (by decide)

/-- A list of length 4 has exactly four elements. -/
lemma list_length_four {l : List Nat} (h : l.length = 4) :
    ∃ a b c d, l = [a, b, c, d] := by
  rcases l with _ | ⟨a, _ | ⟨b, _ | ⟨c, _ | ⟨d, _ | _⟩⟩⟩⟩ <;> simp at h
  exact ⟨a, b, c, d, rfl⟩

/-- The token slice `data[5:9]` has exactly 4 bytes whenever the
buffer holds at least 9. -/
lemma token_length_four (data spare : List Nat)
    (hcap : 9 ≤ data.length + spare.length) :
    (((data ++ spare).drop 5).take 4).length = 4 := by
  simp [List.length_take, List.length_drop, List.length_append]
  omega

/-- Patching the checksum byte of the assembled login reply leaves it
unchanged (the placeholder byte is already the XOR of the single
success byte). -/
lemma setChecksum_login (t0 t1 t2 t3 : Nat) :
    setChecksum [0x00, 0x08, 0x60, 0x01, 0x01, t0, t1, t2, t3, 0x01]
      = [0x00, 0x08, 0x60, 0x01, 0x01, t0, t1, t2, t3, 0x01] := rfl

/-- The checksum clause of claim C2 is the negation of
`validateChecksum` on inputs of at least 7 bytes. -/
lemma claimChecksum_eq (data : List Nat) (h : ¬ data.length < 7) :
    (if 9 < data.length then !(data.getD 4 0 == xorChecksum (data.drop 9))
     else !(data.getD 4 0 == 0x00)) = !validateChecksum data := by
  unfold validateChecksum
  have h5 : ¬ data.length < 5 := by omega
  rw [if_neg h5]
  by_cases h9 : 9 < data.length <;> simp [h9]

/-- Complete description of the login branch: on a checksum-valid
frame with opcode `0x60` that does not trip the `uint16` wrap of
`17+boxIDLen`, `HandleIncoming` replies with the fixed success frame
echoing the token, and returns the NUL-stripped box id exactly when at
least 21 bytes arrived and the declared box id fits. -/
lemma handleIncoming_login (data spare : List Nat)
    (h7 : ¬ data.length < 7)
    (hvc : validateChecksum data = true)
    (hcmd : data[2]?.getD 0 = 0x60)
    (hcap : ¬ data.length + spare.length < 9)
    (hnw : ¬(21 ≤ data.length ∧
        (17 + (data[15]?.getD 0 * 256 + data[16]?.getD 0)) % 65536 < 17)) :
    HandleIncoming data spare =
      .ok (some ([0x00, 0x08, 0x60, 0x01, 0x01]
            ++ ((data ++ spare).drop 5).take 4 ++ [0x01]),
          if 21 ≤ data.length ∧
             (17 + (data[15]?.getD 0 * 256 + data[16]?.getD 0)) % 65536
               ≤ data.length
          then stripTrailingNul ((data.drop 17).take
            ((17 + (data[15]?.getD 0 * 256 + data[16]?.getD 0)) % 65536 - 17))
          else []) := by
  obtain ⟨t0, t1, t2, t3, ht⟩ :=
    list_length_four (token_length_four data spare (by omega))
  by_cases h21 : 21 ≤ data.length
  · by_cases hhi : (17 + (data[15]?.getD 0 * 256 + data[16]?.getD 0)) % 65536
        ≤ data.length
    · have hlt : ¬ (17 + (data[15]?.getD 0 * 256 + data[16]?.getD 0)) % 65536 < 17 :=
        fun hl => hnw ⟨h21, hl⟩
      simp [HandleIncoming, h7, hvc, hcmd, hcap, h21, hhi, hlt, ht, setChecksum_login]
    · simp [HandleIncoming, h7, hvc, hcmd, hcap, h21, hhi, ht, setChecksum_login]
  · simp [HandleIncoming, h7, hvc, hcmd, hcap, h21, ht, setChecksum_login]

/-- Claim C7 amended: on every checksum-valid login frame (opcode
`0x60`) that does not trip the `uint16` wrap of `17+boxIdLen`
(`boxIdLen ≥ 65519` with at least 21 bytes received crashes instead),
`HandleIncoming` replies with the fixed frame carrying the single
success byte `0x01` and echoing the token bytes at offsets 5..8 of
the read buffer; the identity is the NUL-stripped box id only when at
least 21 bytes arrived and `17+boxIdLen` of them are present, and is
empty otherwise — in particular for frames of fewer than 21 bytes even
when the declared box id is fully present. -/
theorem login_reply_amended (data spare : List Nat)
    (h7 : 7 ≤ data.length)
    (hvc : validateChecksum data = true)
    (hcmd : data.getD 2 0 = 0x60)
    (hcap : 9 ≤ data.length + spare.length)
    (hnw : ¬(21 ≤ data.length ∧
        65519 ≤ data.getD 15 0 * 256 + data.getD 16 0)) :
    HandleIncoming data spare =
      .ok (some ([0x00, 0x08, 0x60, 0x01, 0x01]
            ++ ((data ++ spare).drop 5).take 4 ++ [0x01]),
          if 21 ≤ data.length ∧
             17 + (data.getD 15 0 * 256 + data.getD 16 0) ≤ data.length
          then stripTrailingNul ((data.drop 17).take
            (data.getD 15 0 * 256 + data.getD 16 0))
          else []) := by
  simp only [List.getD_eq_getElem?_getD] at hcmd hnw ⊢
  by_cases h21 : 21 ≤ data.length
  · have hble : data[15]?.getD 0 * 256 + data[16]?.getD 0 ≤ 65518 := by
      by_contra hgt
      exact hnw ⟨h21, by omega⟩
    have hmod : (17 + (data[15]?.getD 0 * 256 + data[16]?.getD 0)) % 65536
        = 17 + (data[15]?.getD 0 * 256 + data[16]?.getD 0) :=
      Nat.mod_eq_of_lt (by omega)
    have hnw2 : ¬(21 ≤ data.length ∧
        (17 + (data[15]?.getD 0 * 256 + data[16]?.getD 0)) % 65536 < 17) := by
      rw [hmod]; omega
    rw [handleIncoming_login data spare (by omega) hvc hcmd (by omega) hnw2, hmod]
    simp [Nat.add_sub_cancel_left]
  · have hnw2 : ¬(21 ≤ data.length ∧
        (17 + (data[15]?.getD 0 * 256 + data[16]?.getD 0)) % 65536 < 17) :=
      fun h => h21 h.1
    rw [handleIncoming_login data spare (by omega) hvc hcmd (by omega) hnw2]
    simp [h21]

/-- Witness for claim C7: a 21-byte login frame with box id bytes
`"ABC"` followed by NUL, token `09 09 09 09`. -/
theorem login_reply_amended_witness :
    HandleIncoming
      [0, 21, 0x60, 1, 68, 9, 9, 9, 9, 0, 0, 0, 0, 0, 0, 0, 4, 65, 66, 67, 0] [] =
      .ok (some [0x00, 0x08, 0x60, 0x01, 0x01, 9, 9, 9, 9, 0x01], [65, 66, 67]) :=
  (login_reply_amended
    [0, 21, 0x60, 1, 68, 9, 9, 9, 9, 0, 0, 0, 0, 0, 0, 0, 4, 65, 66, 67, 0] []
    (by decide) (by decide) (by decide) (by decide) (by decide)).trans (by decide)

/-- Claim C2 amended: provided the frame is not a login frame whose
`boxIdLen` trips the `uint16` wrap of `17+boxIdLen` (those crash the
process instead of replying) and the read buffer holds at least 9
bytes (true for the 1024-byte buffer of `main.go`), `HandleIncoming`
returns no reply and the empty identity exactly under claim C2's
condition (too short / checksum mismatch / unknown opcode / minimum
length unmet), and in every other case produces a reply frame. -/
theorem noReplyCond_amended (data spare : List Nat)
    (hcap : 9 ≤ data.length + spare.length)
    (hnw : ¬(data.getD 2 0 = 0x60 ∧ 21 ≤ data.length ∧
        (17 + (data.getD 15 0 * 256 + data.getD 16 0)) % 65536 < 17)) :
    (HandleIncoming data spare = .ok (none, []) ↔ claimC2Cond data = true)
    ∧ (claimC2Cond data = false →
        resultHasReply (HandleIncoming data spare) = true) := by
  have hcap' : ¬ data.length + spare.length < 9 := by omega
  have hnw' := hnw
  simp only [List.getD_eq_getElem?_getD] at hnw'
  by_cases h7 : data.length < 7
  · refine ⟨?_, fun hcond => ?_⟩
    · simp [HandleIncoming, h7, claimC2Cond]
    · simp [claimC2Cond, h7] at hcond
  · have hchk := claimChecksum_eq data h7
    by_cases hvc : validateChecksum data = true
    · by_cases hc60 : data.getD 2 0 = 0x60
      · have hc60' : data[2]?.getD 0 = 0x60 := by
          rw [← List.getD_eq_getElem?_getD]; exact hc60
        have hnw2 : ¬(21 ≤ data.length ∧
            (17 + (data[15]?.getD 0 * 256 + data[16]?.getD 0)) % 65536 < 17) :=
          fun h => hnw' ⟨hc60', h.1, h.2⟩
        have hcondf : claimC2Cond data = false := by
          unfold claimC2Cond
          rw [hchk, hvc, hc60]
          simp [inDispatchTable, h7]
        rw [handleIncoming_login data spare h7 hvc hc60' hcap' hnw2, hcondf]
        refine ⟨by simp, fun hcond => by simp [resultHasReply]⟩
      · have hc60' : ¬ data[2]?.getD 0 = 0x60 := by
          rw [← List.getD_eq_getElem?_getD]; exact hc60
        by_cases hc61 : data.getD 2 0 = 0x61
        · have hc61' : data[2]?.getD 0 = 0x61 := by
            rw [← List.getD_eq_getElem?_getD]; exact hc61
          have hcondf : claimC2Cond data = false := by
            unfold claimC2Cond
            rw [hchk, hvc, hc61]
            simp [inDispatchTable, h7]
          rw [hcondf]
          refine ⟨?_, fun hcond => ?_⟩ <;>
            simp [HandleIncoming, resultHasReply, h7, hvc, hcap', hc61']
        · have hc61' : ¬ data[2]?.getD 0 = 0x61 := by
            rw [← List.getD_eq_getElem?_getD]; exact hc61
          by_cases hc66 : data.getD 2 0 = 0x66
          · have hc66' : data[2]?.getD 0 = 0x66 := by
              rw [← List.getD_eq_getElem?_getD]; exact hc66
            by_cases h18 : 18 ≤ data.length
            · have hcondf : claimC2Cond data = false := by
                unfold claimC2Cond
                rw [hchk, hvc, hc66]
                simp [inDispatchTable, h7]
                omega
              rw [hcondf]
              refine ⟨?_, fun hcond => ?_⟩ <;>
                simp [HandleIncoming, resultHasReply, h7, hvc, hcap', hc66', h18]
            · have hcondt : claimC2Cond data = true := by
                unfold claimC2Cond
                rw [hchk, hvc, hc66]
                simp [inDispatchTable, h7]
                omega
              rw [hcondt]
              refine ⟨?_, fun hcond => ?_⟩
              · simp [HandleIncoming, h7, hvc, hcap', hc66', h18]
              · exact absurd hcond (by simp [hcondt])
          · have hc66' : ¬ data[2]?.getD 0 = 0x66 := by
              rw [← List.getD_eq_getElem?_getD]; exact hc66
            by_cases hc62 : data.getD 2 0 = 0x62
            · have hc62' : data[2]?.getD 0 = 0x62 := by
                rw [← List.getD_eq_getElem?_getD]; exact hc62
              have hcondf : claimC2Cond data = false := by
                unfold claimC2Cond
                rw [hchk, hvc, hc62]
                simp [inDispatchTable, h7]
              rw [hcondf]
              refine ⟨?_, fun hcond => ?_⟩ <;>
                simp [HandleIncoming, resultHasReply, h7, hvc, hcap', hc62']
            · have hc62' : ¬ data[2]?.getD 0 = 0x62 := by
                rw [← List.getD_eq_getElem?_getD]; exact hc62
              by_cases hc65 : data.getD 2 0 = 0x65
              · have hc65' : data[2]?.getD 0 = 0x65 := by
                  rw [← List.getD_eq_getElem?_getD]; exact hc65
                by_cases h10 : 10 ≤ data.length
                · have hcondf : claimC2Cond data = false := by
                    unfold claimC2Cond
                    rw [hchk, hvc, hc65]
                    simp [inDispatchTable, h7]
                    omega
                  rw [hcondf]
                  refine ⟨?_, fun hcond => ?_⟩ <;>
                    simp [HandleIncoming, resultHasReply, h7, hvc, hcap', hc65', h10]
                · have hcondt : claimC2Cond data = true := by
                    unfold claimC2Cond
                    rw [hchk, hvc, hc65]
                    simp [inDispatchTable, h7]
                    omega
                  rw [hcondt]
                  refine ⟨?_, fun hcond => ?_⟩
                  · simp [HandleIncoming, h7, hvc, hcap', hc65', h10]
                  · exact absurd hcond (by simp [hcondt])
              · have hc65' : ¬ data[2]?.getD 0 = 0x65 := by
                  rw [← List.getD_eq_getElem?_getD]; exact hc65
                by_cases hc80 : data.getD 2 0 = 0x80
                · have hc80' : data[2]?.getD 0 = 0x80 := by
                    rw [← List.getD_eq_getElem?_getD]; exact hc80
                  by_cases h10 : 10 ≤ data.length
                  · have hcondf : claimC2Cond data = false := by
                      unfold claimC2Cond
                      rw [hchk, hvc, hc80]
                      simp [inDispatchTable, h7]
                      omega
                    rw [hcondf]
                    refine ⟨?_, fun hcond => ?_⟩ <;>
                      simp [HandleIncoming, resultHasReply, h7, hvc, hcap',
                        hc60', hc61', hc66', hc62', hc65', hc80', h10]
                  · have hcondt : claimC2Cond data = true := by
                      unfold claimC2Cond
                      rw [hchk, hvc, hc80]
                      simp [inDispatchTable, h7]
                      omega
                    rw [hcondt]
                    refine ⟨?_, fun hcond => ?_⟩
                    · simp [HandleIncoming, h7, hvc, hcap',
                        hc60', hc61', hc66', hc62', hc65', hc80', h10]
                    · exact absurd hcond (by simp [hcondt])
                · have hc80' : ¬ data[2]?.getD 0 = 0x80 := by
                    rw [← List.getD_eq_getElem?_getD]; exact hc80
                  by_cases hc69 : data.getD 2 0 = 0x69
                  · have hc69' : data[2]?.getD 0 = 0x69 := by
                      rw [← List.getD_eq_getElem?_getD]; exact hc69
                    have hcondf : claimC2Cond data = false := by
                      unfold claimC2Cond
                      rw [hchk, hvc, hc69]
                      simp [inDispatchTable, h7]
                    rw [hcondf]
                    refine ⟨?_, fun hcond => ?_⟩ <;>
                      simp [HandleIncoming, resultHasReply, h7, hvc, hcap',
                        hc60', hc61', hc66', hc62', hc65', hc80', hc69']
                  · have hc69' : ¬ data[2]?.getD 0 = 0x69 := by
                      rw [← List.getD_eq_getElem?_getD]; exact hc69
                    by_cases hc77 : data.getD 2 0 = 0x77
                    · have hc77' : data[2]?.getD 0 = 0x77 := by
                        rw [← List.getD_eq_getElem?_getD]; exact hc77
                      have hcondf : claimC2Cond data = false := by
                        unfold claimC2Cond
                        rw [hchk, hvc, hc77]
                        simp [inDispatchTable, h7]
                      rw [hcondf]
                      refine ⟨?_, fun hcond => ?_⟩ <;>
                        simp [HandleIncoming, resultHasReply, h7, hvc, hcap',
                          hc60', hc61', hc66', hc62', hc65', hc80', hc69', hc77']
                    · have hc77' : ¬ data[2]?.getD 0 = 0x77 := by
                        rw [← List.getD_eq_getElem?_getD]; exact hc77
                      by_cases hc70 : data.getD 2 0 = 0x70
                      · have hc70' : data[2]?.getD 0 = 0x70 := by
                          rw [← List.getD_eq_getElem?_getD]; exact hc70
                        by_cases h10 : 10 ≤ data.length
                        · have hcondf : claimC2Cond data = false := by
                            unfold claimC2Cond
                            rw [hchk, hvc, hc70]
                            simp [inDispatchTable, h7]
                            omega
                          rw [hcondf]
                          refine ⟨?_, fun hcond => ?_⟩ <;>
                            simp [HandleIncoming, resultHasReply, h7, hvc, hcap',
                              hc60', hc61', hc66', hc62', hc65', hc80', hc69',
                              hc77', hc70', h10]
                        · have hcondt : claimC2Cond data = true := by
                            unfold claimC2Cond
                            rw [hchk, hvc, hc70]
                            simp [inDispatchTable, h7]
                            omega
                          rw [hcondt]
                          refine ⟨?_, fun hcond => ?_⟩
                          · simp [HandleIncoming, h7, hvc, hcap',
                              hc60', hc61', hc66', hc62', hc65', hc80', hc69',
                              hc77', hc70', h10]
                          · exact absurd hcond (by simp [hcondt])
                      · have hc70' : ¬ data[2]?.getD 0 = 0x70 := by
                          rw [← List.getD_eq_getElem?_getD]; exact hc70
                        by_cases hc64 : data.getD 2 0 = 0x64
                        · have hc64' : data[2]?.getD 0 = 0x64 := by
                            rw [← List.getD_eq_getElem?_getD]; exact hc64
                          have hcondf : claimC2Cond data = false := by
                            unfold claimC2Cond
                            rw [hchk, hvc, hc64]
                            simp [inDispatchTable, h7]
                          rw [hcondf]
                          refine ⟨?_, fun hcond => ?_⟩ <;>
                            simp [HandleIncoming, resultHasReply, h7, hvc, hcap',
                              hc60', hc61', hc66', hc62', hc65', hc80', hc69',
                              hc77', hc70', hc64']
                        · have hc64' : ¬ data[2]?.getD 0 = 0x64 := by
                            rw [← List.getD_eq_getElem?_getD]; exact hc64
                          by_cases hc67 : data.getD 2 0 = 0x67
                          · have hc67' : data[2]?.getD 0 = 0x67 := by
                              rw [← List.getD_eq_getElem?_getD]; exact hc67
                            have hcondf : claimC2Cond data = false := by
                              unfold claimC2Cond
                              rw [hchk, hvc, hc67]
                              simp [inDispatchTable, h7]
                            rw [hcondf]
                            refine ⟨?_, fun hcond => ?_⟩ <;>
                              simp [HandleIncoming, resultHasReply, h7, hvc, hcap',
                                hc60', hc61', hc66', hc62', hc65', hc80', hc69',
                                hc77', hc70', hc64', hc67']
                          · have hc67' : ¬ data[2]?.getD 0 = 0x67 := by
                              rw [← List.getD_eq_getElem?_getD]; exact hc67
                            by_cases hc63 : data.getD 2 0 = 0x63
                            · have hc63' : data[2]?.getD 0 = 0x63 := by
                                rw [← List.getD_eq_getElem?_getD]; exact hc63
                              by_cases h10 : 10 ≤ data.length
                              · have hcondf : claimC2Cond data = false := by
                                  unfold claimC2Cond
                                  rw [hchk, hvc, hc63]
                                  simp [inDispatchTable, h7]
                                  omega
                                rw [hcondf]
                                refine ⟨?_, fun hcond => ?_⟩ <;>
                                  simp [HandleIncoming, resultHasReply, h7, hvc,
                                    hcap', hc60', hc61', hc66', hc62', hc65',
                                    hc80', hc69', hc77', hc70', hc64', hc67',
                                    hc63', h10]
                              · have hcondt : claimC2Cond data = true := by
                                  unfold claimC2Cond
                                  rw [hchk, hvc, hc63]
                                  simp [inDispatchTable, h7]
                                  omega
                                rw [hcondt]
                                refine ⟨?_, fun hcond => ?_⟩
                                · simp [HandleIncoming, h7, hvc, hcap',
                                    hc60', hc61', hc66', hc62', hc65', hc80',
                                    hc69', hc77', hc70', hc64', hc67', hc63', h10]
                                · exact absurd hcond (by simp [hcondt])
                            · have hc63' : ¬ data[2]?.getD 0 = 0x63 := by
                                rw [← List.getD_eq_getElem?_getD]; exact hc63
                              have hcondt : claimC2Cond data = true := by
                                unfold claimC2Cond
                                rw [hchk, hvc]
                                simp [inDispatchTable, h7, hc60', hc61', hc66',
                                  hc62', hc65', hc80', hc69', hc77', hc70',
                                  hc64', hc67', hc63']
                              rw [hcondt]
                              refine ⟨?_, fun hcond => ?_⟩
                              · simp [HandleIncoming, h7, hvc, hcap',
                                  hc60', hc61', hc66', hc62', hc65', hc80',
                                  hc69', hc77', hc70', hc64', hc67', hc63']
                              · exact absurd hcond (by simp [hcondt])
    · have hvcf : validateChecksum data = false := by
        cases hb : validateChecksum data with
        | false => rfl
        | true => exact absurd hb hvc
      have hcondt : claimC2Cond data = true := by
        unfold claimC2Cond
        rw [hchk, hvcf]
        simp
      rw [hcondt]
      refine ⟨?_, fun hcond => ?_⟩
      · simp [HandleIncoming, h7, hvcf]
      · exact absurd hcond (by simp [hcondt])

/-- Witness for claim C2 at a 9-byte restart frame (opcode `0x67`):
its no-reply condition is false and a reply is produced. -/
theorem noReplyCond_amended_witness :
    (HandleIncoming [0x00, 0x07, 0x67, 0x01, 0x00, 1, 2, 3, 4] [] =
        .ok (none, []) ↔
      claimC2Cond [0x00, 0x07, 0x67, 0x01, 0x00, 1, 2, 3, 4] = true)
    ∧ (claimC2Cond [0x00, 0x07, 0x67, 0x01, 0x00, 1, 2, 3, 4] = false →
        resultHasReply
          (HandleIncoming [0x00, 0x07, 0x67, 0x01, 0x00, 1, 2, 3, 4] []) = true) :=
  noReplyCond_amended [0x00, 0x07, 0x67, 0x01, 0x00, 1, 2, 3, 4] []
    (by decide) (by decide)

/-- Length of a list after two conses. -/
lemma len_cons2 (a b : Nat) (l : List Nat) :
    (a :: b :: l).length = l.length + 2 := rfl

/-- Byte at offset 2 ignores the first two bytes. -/
lemma getD2_cons (a b : Nat) (l : List Nat) :
    (a :: b :: l).getD 2 0 = l.getD 0 0 := rfl

/-- Byte at offset 9 ignores the first two bytes. -/
lemma getD9_cons (a b : Nat) (l : List Nat) :
    (a :: b :: l).getD 9 0 = l.getD 7 0 := rfl

/-- Byte at offset 15 ignores the first two bytes. -/
lemma getD15_cons (a b : Nat) (l : List Nat) :
    (a :: b :: l).getD 15 0 = l.getD 13 0 := rfl

/-- Byte at offset 16 ignores the first two bytes. -/
lemma getD16_cons (a b : Nat) (l : List Nat) :
    (a :: b :: l).getD 16 0 = l.getD 14 0 := rfl

/-- Dropping 17 bytes ignores the first two bytes. -/
lemma drop17_cons (a b : Nat) (l : List Nat) :
    (a :: b :: l).drop 17 = l.drop 15 := rfl

/-- Dropping 5 bytes of the buffer ignores the first two bytes. -/
lemma drop5_append_cons (a b : Nat) (l s : List Nat) :
    ((a :: b :: l) ++ s).drop 5 = (l ++ s).drop 3 := rfl

/-- The checksum validation never looks at the first two bytes (the
length field). -/
lemma validateChecksum_cons2 (x y z w : Nat) (l : List Nat) :
    validateChecksum (x :: y :: l) = validateChecksum (z :: w :: l) := rfl

/-- Master lemma for claim C9: for every opcode other than the
heartbeat `0x61`, the whole result of `HandleIncoming` is independent
of the first two bytes (the length field). -/
lemma handleIncoming_cons2 (x y z w : Nat) (rest spare : List Nat)
    (hcmd : rest.getD 0 0 ≠ 0x61) :
    HandleIncoming (x :: y :: rest) spare = HandleIncoming (z :: w :: rest) spare := by
  have hv := validateChecksum_cons2 x y z w rest
  simp only [HandleIncoming, len_cons2, getD2_cons, getD9_cons, getD15_cons,
    getD16_cons, drop17_cons, drop5_append_cons, hv, if_neg hcmd]

/-- On a heartbeat frame the dispatcher echoes the input after the
three prefix checks. -/
lemma handleIncoming_hb_value (data spare : List Nat)
    (hcmd : data.getD 2 0 = 0x61) :
    HandleIncoming data spare =
      if data.length < 7 then .ok (none, [])
      else if validateChecksum data = false then .ok (none, [])
      else if data.length + spare.length < 9 then .crash
      else .ok (some data, []) := by
  rw [List.getD_eq_getElem?_getD] at hcmd
  by_cases h7 : data.length < 7
  · simp [HandleIncoming, h7]
  · by_cases hvc : validateChecksum data = false
    · simp [HandleIncoming, h7, hvc]
    · by_cases hcap : data.length + spare.length < 9
      · simp [HandleIncoming, h7, hvc, hcap, hcmd]
      · simp [HandleIncoming, h7, hvc, hcap, hcmd]

/-- Claim C9 amended: overwriting the length field of an input of at
least 7 bytes never changes whether `HandleIncoming` crashes, whether
it produces a reply, or the identity it returns; for every opcode
other than the heartbeat `0x61` the whole result is unchanged (the
heartbeat reply echoes the input and therefore contains the length
field itself). -/
theorem lengthField_independence_amended (data spare : List Nat) (v : Nat)
    (h7 : 7 ≤ data.length) :
    resultAborts (HandleIncoming (setLenField v data) spare)
        = resultAborts (HandleIncoming data spare)
    ∧ resultHasReply (HandleIncoming (setLenField v data) spare)
        = resultHasReply (HandleIncoming data spare)
    ∧ resultIdentity (HandleIncoming (setLenField v data) spare)
        = resultIdentity (HandleIncoming data spare)
    ∧ (data.getD 2 0 ≠ 0x61 →
        HandleIncoming (setLenField v data) spare = HandleIncoming data spare) := by
  rcases data with _ | ⟨x, _ | ⟨y, rest⟩⟩
  · simp at h7
  · simp at h7
  · have hset : setLenField v (x :: y :: rest) = v / 256 % 256 :: v % 256 :: rest := rfl
    rw [hset]
    by_cases hcmd : rest.getD 0 0 = 0x61
    · have e1 := handleIncoming_hb_value (v / 256 % 256 :: v % 256 :: rest) spare hcmd
      have e2 := handleIncoming_hb_value (x :: y :: rest) spare hcmd
      rw [e1, e2, len_cons2 (v / 256 % 256) (v % 256) rest, len_cons2 x y rest,
        validateChecksum_cons2 (v / 256 % 256) (v % 256) x y rest]
      refine ⟨?_, ?_, ?_, fun hne => absurd hcmd hne⟩ <;>
        (by_cases c1 : rest.length + 2 < 7 <;>
         by_cases c2 : validateChecksum (x :: y :: rest) = false <;>
         by_cases c3 : rest.length + 2 + spare.length < 9 <;>
         simp [c1, c2, c3, resultAborts, resultHasReply, resultIdentity])
    · have he := handleIncoming_cons2 (v / 256 % 256) (v % 256) x y rest spare hcmd
      rw [he]
      exact ⟨rfl, rfl, rfl, fun _ => rfl⟩

/-- Witness for claim C9: a 9-byte query-firmware frame (opcode
`0x62`) processed identically after its length field is overwritten
with 500. -/
theorem lengthField_independence_amended_witness :
    resultAborts (HandleIncoming
        (setLenField 500 [0x00, 0x07, 0x62, 0x01, 0x00, 1, 2, 3, 4]) [])
      = resultAborts (HandleIncoming [0x00, 0x07, 0x62, 0x01, 0x00, 1, 2, 3, 4] [])
    ∧ resultHasReply (HandleIncoming
        (setLenField 500 [0x00, 0x07, 0x62, 0x01, 0x00, 1, 2, 3, 4]) [])
      = resultHasReply (HandleIncoming [0x00, 0x07, 0x62, 0x01, 0x00, 1, 2, 3, 4] [])
    ∧ resultIdentity (HandleIncoming
        (setLenField 500 [0x00, 0x07, 0x62, 0x01, 0x00, 1, 2, 3, 4]) [])
      = resultIdentity (HandleIncoming [0x00, 0x07, 0x62, 0x01, 0x00, 1, 2, 3, 4] [])
    ∧ ([0x00, 0x07, 0x62, 0x01, 0x00, 1, 2, 3, 4].getD 2 0 ≠ 0x61 →
        HandleIncoming (setLenField 500 [0x00, 0x07, 0x62, 0x01, 0x00, 1, 2, 3, 4]) []
          = HandleIncoming [0x00, 0x07, 0x62, 0x01, 0x00, 1, 2, 3, 4] []) :=
  lengthField_independence_amended [0x00, 0x07, 0x62, 0x01, 0x00, 1, 2, 3, 4] [] 500
    (by decide)

/-- Injectivity of `some` on opcode/payload pairs. -/
lemma pairSome_inj {a c : Nat} {b d : List Nat}
    (h : (some (a, b) : Option (Nat × List Nat)) = some (c, d)) :
    a = c ∧ b = d := by
  have h2 := Option.some.inj h
  exact ⟨congrArg Prod.fst h2, congrArg Prod.snd h2⟩

/-- Result of the command switch: always the catalog opcode together
with a payload of at most 20 bytes. -/
lemma commandOpcodePayload_shape (cmd ss : String) (cb : Nat) (payload : List Nat)
    (hsw : commandOpcodePayload cmd ss = some (cb, payload)) :
    opcodeOfCmd cmd = some cb ∧ payload.length ≤ 20 := by
  unfold commandOpcodePayload at hsw
  by_cases h1 : cmd = "heartbeat"
  · rw [if_pos h1] at hsw
    obtain ⟨hcb, hp⟩ := pairSome_inj hsw
    subst hcb; subst hp
    exact ⟨by rw [h1]; rfl, by decide⟩
  · rw [if_neg h1] at hsw
    by_cases h2 : cmd = "query_fw"
    · rw [if_pos h2] at hsw
      obtain ⟨hcb, hp⟩ := pairSome_inj hsw
      subst hcb; subst hp
      exact ⟨by rw [h2]; rfl, by decide⟩
    · rw [if_neg h2] at hsw
      by_cases h3 : cmd = "restart"
      · rw [if_pos h3] at hsw
        obtain ⟨hcb, hp⟩ := pairSome_inj hsw
        subst hcb; subst hp
        exact ⟨by rw [h3]; rfl, by decide⟩
      · rw [if_neg h3] at hsw
        by_cases h4 : cmd = "query_iccid"
        · rw [if_pos h4] at hsw
          obtain ⟨hcb, hp⟩ := pairSome_inj hsw
          subst hcb; subst hp
          exact ⟨by rw [h4]; rfl, by decide⟩
        · rw [if_neg h4] at hsw
          by_cases h5 : cmd = "voice_get"
          · rw [if_pos h5] at hsw
            obtain ⟨hcb, hp⟩ := pairSome_inj hsw
            subst hcb; subst hp
            exact ⟨by rw [h5]; rfl, by decide⟩
          · rw [if_neg h5] at hsw
            by_cases h6 : cmd = "query_power_bank"
            · rw [if_pos h6] at hsw
              obtain ⟨hcb, hp⟩ := pairSome_inj hsw
              subst hcb; subst hp
              exact ⟨by rw [h6]; rfl, by decide⟩
            · rw [if_neg h6] at hsw
              by_cases h7 : cmd = "rent"
              · rw [if_pos h7] at hsw
                split at hsw
                · rename_i n hA
                  by_cases hR : 1 ≤ n ∧ n ≤ 255
                  · rw [if_pos hR] at hsw
                    obtain ⟨hcb, hp⟩ := pairSome_inj hsw
                    subst hcb; subst hp
                    exact ⟨by rw [h7]; rfl, by simp⟩
                  · rw [if_neg hR] at hsw
                    exact absurd hsw (by simp)
                · exact absurd hsw (by simp)
              · rw [if_neg h7] at hsw
                by_cases h8 : cmd = "eject"
                · rw [if_pos h8] at hsw
                  split at hsw
                  · rename_i n hA
                    by_cases hR : 1 ≤ n ∧ n ≤ 255
                    · rw [if_pos hR] at hsw
                      obtain ⟨hcb, hp⟩ := pairSome_inj hsw
                      subst hcb; subst hp
                      exact ⟨by rw [h8]; rfl, by simp⟩
                    · rw [if_neg hR] at hsw
                      exact absurd hsw (by simp)
                  · exact absurd hsw (by simp)
                · rw [if_neg h8] at hsw
                  by_cases h9 : cmd = "voice_set"
                  · rw [if_pos h9] at hsw
                    split at hsw
                    · rename_i n hA
                      by_cases hR : 0 ≤ n ∧ n ≤ 15
                      · rw [if_pos hR] at hsw
                        obtain ⟨hcb, hp⟩ := pairSome_inj hsw
                        subst hcb; subst hp
                        exact ⟨by rw [h9]; rfl, by simp⟩
                      · rw [if_neg hR] at hsw
                        exact absurd hsw (by simp)
                    · exact absurd hsw (by simp)
                  · rw [if_neg h9] at hsw
                    by_cases h10 : cmd = "set_server"
                    · rw [if_pos h10] at hsw
                      split at hsw
                      · rename_i n hA
                        by_cases hP : 0 < n
                        · rw [if_pos hP] at hsw
                          obtain ⟨hcb, hp⟩ := pairSome_inj hsw
                          subst hcb; subst hp
                          exact ⟨by rw [h10]; rfl, by simp [strBytes]⟩
                        · rw [if_neg hP] at hsw
                          exact absurd hsw (by simp)
                      · exact absurd hsw (by simp)
                    · rw [if_neg h10] at hsw
                      exact absurd hsw (by simp)

/-- Shape of every frame built by `CreateCommand`: a 4-byte decoded
token, a payload of at most 20 bytes, the catalog opcode, and the
header laid out exactly as the builder writes it. -/
lemma createCommand_shape (cmd th ss : String) (frame : List Nat)
    (h : CreateCommand cmd th ss = some frame) :
    ∃ (cb : Nat) (token payload : List Nat),
      hexDecode th.data = some token ∧ token.length = 4 ∧ payload.length ≤ 20 ∧
      opcodeOfCmd cmd = some cb ∧
      frame = [(7 + payload.length) % 65536 / 256, (7 + payload.length) % 65536 % 256,
               cb, 0x01,
               if 0 < payload.length then xorChecksum payload else 0x00]
              ++ token ++ payload := by
  rcases hhex : hexDecode th.data with _ | token
  · simp [CreateCommand, hhex] at h
  · rcases hsw : commandOpcodePayload cmd ss with _ | ⟨cb, payload⟩
    · simp [CreateCommand, hhex, hsw] at h
    · by_cases hlen : token.length = 4
      · obtain ⟨hop, hplen⟩ := commandOpcodePayload_shape cmd ss cb payload hsw
        refine ⟨cb, token, payload, rfl, hlen, hplen, hop, ?_⟩
        simp only [CreateCommand, hhex, hsw] at h
        rw [if_neg (by simp [hlen])] at h
        exact (Option.some.inj h).symm
      · simp [CreateCommand, hhex, hlen] at h

/-- Claim C3 amended: for every frame built by `CreateCommand`, the
2-byte big-endian length field equals 7 plus the number of payload
bytes after the 9-byte header, which is the total frame size minus 2
(the field excludes its own two bytes), not the total frame size. -/
theorem lengthField_amended (cmd th ss : String) (frame : List Nat)
    (h : CreateCommand cmd th ss = some frame) :
    frame.getD 0 0 * 256 + frame.getD 1 0 = frame.length - 2
    ∧ frame.getD 0 0 * 256 + frame.getD 1 0 = 7 + (frame.drop 9).length
    ∧ 9 ≤ frame.length := by
  obtain ⟨cb, token, payload, hhex, hlen, hplen, hop, hframe⟩ :=
    createCommand_shape cmd th ss frame h
  obtain ⟨t0, t1, t2, t3, ht⟩ := list_length_four hlen
  subst ht
  subst hframe
  have hmod : (7 + payload.length) % 65536 = 7 + payload.length :=
    Nat.mod_eq_of_lt (by omega)
  have hdiv : (7 + payload.length) / 256 = 0 := Nat.div_eq_of_lt (by omega)
  have hmod2 : (7 + payload.length) % 256 = 7 + payload.length :=
    Nat.mod_eq_of_lt (by omega)
  refine ⟨?_, ?_, ?_⟩
  · show (7 + payload.length) % 65536 / 256 * 256 + (7 + payload.length) % 65536 % 256
      = (payload.length + 9) - 2
    rw [hmod, hdiv, hmod2]
    omega
  · show (7 + payload.length) % 65536 / 256 * 256 + (7 + payload.length) % 65536 % 256
      = 7 + payload.length
    rw [hmod, hdiv, hmod2]
    omega
  · show 9 ≤ payload.length + 9
    omega

/-- Claim C4: decoding every frame built by `CreateCommand` at the
fixed offsets (opcode 2, version 3, checksum 4, token 5..8, payload
9..) reproduces the catalog opcode of the command, version `0x01`,
the hex-decoded token, and the payload, with the checksum byte equal
to the XOR of the payload bytes; reassembling the decoded fields
yields the frame exactly. -/
theorem roundTrip (cmd th ss : String) (frame : List Nat)
    (h : CreateCommand cmd th ss = some frame) :
    opcodeOfCmd cmd = some (frame.getD 2 0)
    ∧ frame.getD 3 0 = 0x01
    ∧ hexDecode th.data = some ((frame.drop 5).take 4)
    ∧ frame.getD 4 0 = xorChecksum (frame.drop 9)
    ∧ frame = frame.take 5 ++ (frame.drop 5).take 4 ++ frame.drop 9 := by
  obtain ⟨cb, token, payload, hhex, hlen, hplen, hop, hframe⟩ :=
    createCommand_shape cmd th ss frame h
  obtain ⟨t0, t1, t2, t3, ht⟩ := list_length_four hlen
  subst ht
  subst hframe
  refine ⟨?_, rfl, ?_, ?_, ?_⟩
  · show opcodeOfCmd cmd = some cb
    exact hop
  · show hexDecode th.data = some [t0, t1, t2, t3]
    exact hhex
  · show (if 0 < payload.length then xorChecksum payload else 0x00)
      = xorChecksum payload
    rcases payload with _ | ⟨a, rest⟩
    · rfl
    · simp
  · rfl

/-- Claim C6: with a valid 4-byte token, `rent` and `eject` produce a
frame exactly when the parameter parses to an integer in `[1, 255]`
(accepting 1 and 255, rejecting 0 and 256), and `voice_set` exactly
when it parses into `[0, 15]` (accepting 0 and 15, rejecting -1 and
16); out of range no frame is produced. -/
theorem paramBounds (th : String) (t : List Nat) (s : String)
    (htok : hexDecode th.data = some t) (hlen : t.length = 4) :
    ((CreateCommand "rent" th s).isSome = true ↔
      ∃ n, atoi s = some n ∧ 1 ≤ n ∧ n ≤ 255)
    ∧ ((CreateCommand "eject" th s).isSome = true ↔
      ∃ n, atoi s = some n ∧ 1 ≤ n ∧ n ≤ 255)
    ∧ ((CreateCommand "voice_set" th s).isSome = true ↔
      ∃ n, atoi s = some n ∧ 0 ≤ n ∧ n ≤ 15) := by
  rcases hA : atoi s with _ | n
  · have h1 : CreateCommand "rent" th s = none := by
      simp only [CreateCommand, commandOpcodePayload, htok, hlen, hA]
      rfl
    have h2 : CreateCommand "eject" th s = none := by
      simp only [CreateCommand, commandOpcodePayload, htok, hlen, hA]
      rfl
    have h3 : CreateCommand "voice_set" th s = none := by
      simp only [CreateCommand, commandOpcodePayload, htok, hlen, hA]
      rfl
    refine ⟨?_, ?_, ?_⟩
    · simp [h1, hA]
    · simp [h2, hA]
    · simp [h3, hA]
  · by_cases hb : 1 ≤ n ∧ n ≤ 255
    · have h1 : (CreateCommand "rent" th s).isSome = true := by
        simp only [CreateCommand, commandOpcodePayload, htok, hlen, hA]
        rw [if_pos hb]
        rfl
      have h2 : (CreateCommand "eject" th s).isSome = true := by
        simp only [CreateCommand, commandOpcodePayload, htok, hlen, hA]
        nth_rewrite 2 [if_pos hb]
        rfl
      refine ⟨⟨fun _ => ⟨n, rfl, hb.1, hb.2⟩, fun _ => h1⟩,
        ⟨fun _ => ⟨n, rfl, hb.1, hb.2⟩, fun _ => h2⟩, ?_⟩
      by_cases hv : 0 ≤ n ∧ n ≤ 15
      · have h3 : (CreateCommand "voice_set" th s).isSome = true := by
          simp only [CreateCommand, commandOpcodePayload, htok, hlen, hA]
          rw [if_pos hv]
          rfl
        exact ⟨fun _ => ⟨n, rfl, hv.1, hv.2⟩, fun _ => h3⟩
      · have h3 : CreateCommand "voice_set" th s = none := by
          simp only [CreateCommand, commandOpcodePayload, htok, hlen, hA]
          rw [if_neg hv]
          rfl
        constructor
        · intro hsome
          rw [h3] at hsome
          simp at hsome
        · rintro ⟨m, hm, hv1, hv2⟩
          obtain rfl := Option.some.inj hm
          exact absurd ⟨hv1, hv2⟩ hv
    · have h1 : CreateCommand "rent" th s = none := by
        simp only [CreateCommand, commandOpcodePayload, htok, hlen, hA]
        rw [if_neg hb]
        rfl
      have h2 : CreateCommand "eject" th s = none := by
        simp only [CreateCommand, commandOpcodePayload, htok, hlen, hA]
        nth_rewrite 2 [if_neg hb]
        rfl
      refine ⟨?_, ?_, ?_⟩
      · constructor
        · intro hsome
          rw [h1] at hsome
          simp at hsome
        · rintro ⟨m, hm, hb1, hb2⟩
          obtain rfl := Option.some.inj hm
          exact absurd ⟨hb1, hb2⟩ hb
      · constructor
        · intro hsome
          rw [h2] at hsome
          simp at hsome
        · rintro ⟨m, hm, hb1, hb2⟩
          obtain rfl := Option.some.inj hm
          exact absurd ⟨hb1, hb2⟩ hb
      · by_cases hv : 0 ≤ n ∧ n ≤ 15
        · have h3 : (CreateCommand "voice_set" th s).isSome = true := by
            simp only [CreateCommand, commandOpcodePayload, htok, hlen, hA]
            rw [if_pos hv]
            rfl
          exact ⟨fun _ => ⟨n, rfl, hv.1, hv.2⟩, fun _ => h3⟩
        · have h3 : CreateCommand "voice_set" th s = none := by
            simp only [CreateCommand, commandOpcodePayload, htok, hlen, hA]
            rw [if_neg hv]
            rfl
          constructor
          · intro hsome
            rw [h3] at hsome
            simp at hsome
          · rintro ⟨m, hm, hv1, hv2⟩
            obtain rfl := Option.some.inj hm
            exact absurd ⟨hv1, hv2⟩ hv

/-- Claim C10: for every interval string parsing to an integer
`n > 0` and every valid 4-byte token, the `set_server` frame carries
the fixed length-prefixed NUL-terminated address `127.0.0.1` and port
`9000`, followed by the single interval byte `n % 256` (so `n = 256`
passes validation and is encoded as `0x00`). -/
theorem setServer_frame (th s : String) (t : List Nat) (n : Int)
    (htok : hexDecode th.data = some t) (hlen : t.length = 4)
    (hA : atoi s = some n) (hpos : 0 < n) :
    CreateCommand "set_server" th s =
      some ([0x00, 0x1b, 0x63, 0x01, xorChecksum (setServerPayload n)]
            ++ t ++ setServerPayload n) := by
  simp only [CreateCommand, commandOpcodePayload, htok, hlen, hA]
  rw [if_pos hpos]
  simp [setServerPayload, strBytes]

/-- Witness for claim C3 at the eject command for slot 9. -/
theorem lengthField_amended_witness :
    [0x00, 0x08, 0x80, 0x01, 0x09, 0x11, 0x22, 0x33, 0x44, 0x09].getD 0 0 * 256
        + [0x00, 0x08, 0x80, 0x01, 0x09, 0x11, 0x22, 0x33, 0x44, 0x09].getD 1 0
      = [0x00, 0x08, 0x80, 0x01, 0x09, 0x11, 0x22, 0x33, 0x44, 0x09].length - 2
    ∧ [0x00, 0x08, 0x80, 0x01, 0x09, 0x11, 0x22, 0x33, 0x44, 0x09].getD 0 0 * 256
        + [0x00, 0x08, 0x80, 0x01, 0x09, 0x11, 0x22, 0x33, 0x44, 0x09].getD 1 0
      = 7 + ([0x00, 0x08, 0x80, 0x01, 0x09, 0x11, 0x22, 0x33, 0x44, 0x09].drop 9).length
    ∧ 9 ≤ [0x00, 0x08, 0x80, 0x01, 0x09, 0x11, 0x22, 0x33, 0x44, 0x09].length :=
  lengthField_amended "eject" "11223344" "9"
    [0x00, 0x08, 0x80, 0x01, 0x09, 0x11, 0x22, 0x33, 0x44, 0x09] (by decide)

/-- Witness for claim C4 at the voice-set command for level 7. -/
theorem roundTrip_witness :
    opcodeOfCmd "voice_set"
      = some ([0x00, 0x08, 0x70, 0x01, 0x07, 0xaa, 0xbb, 0xcc, 0xdd, 0x07].getD 2 0)
    ∧ [0x00, 0x08, 0x70, 0x01, 0x07, 0xaa, 0xbb, 0xcc, 0xdd, 0x07].getD 3 0 = 0x01
    ∧ hexDecode ("aabbccdd".data)
      = some (([0x00, 0x08, 0x70, 0x01, 0x07, 0xaa, 0xbb, 0xcc, 0xdd, 0x07].drop 5).take 4)
    ∧ [0x00, 0x08, 0x70, 0x01, 0x07, 0xaa, 0xbb, 0xcc, 0xdd, 0x07].getD 4 0
      = xorChecksum ([0x00, 0x08, 0x70, 0x01, 0x07, 0xaa, 0xbb, 0xcc, 0xdd, 0x07].drop 9)
    ∧ [0x00, 0x08, 0x70, 0x01, 0x07, 0xaa, 0xbb, 0xcc, 0xdd, 0x07]
      = [0x00, 0x08, 0x70, 0x01, 0x07, 0xaa, 0xbb, 0xcc, 0xdd, 0x07].take 5
        ++ ([0x00, 0x08, 0x70, 0x01, 0x07, 0xaa, 0xbb, 0xcc, 0xdd, 0x07].drop 5).take 4
        ++ [0x00, 0x08, 0x70, 0x01, 0x07, 0xaa, 0xbb, 0xcc, 0xdd, 0x07].drop 9 :=
  roundTrip "voice_set" "aabbccdd" "7"
    [0x00, 0x08, 0x70, 0x01, 0x07, 0xaa, 0xbb, 0xcc, 0xdd, 0x07] (by decide)

/-- Witness for claim C6 at the boundary slot value 255. -/
theorem paramBounds_witness :
    ((CreateCommand "rent" "11223344" "255").isSome = true ↔
      ∃ n, atoi "255" = some n ∧ 1 ≤ n ∧ n ≤ 255)
    ∧ ((CreateCommand "eject" "11223344" "255").isSome = true ↔
      ∃ n, atoi "255" = some n ∧ 1 ≤ n ∧ n ≤ 255)
    ∧ ((CreateCommand "voice_set" "11223344" "255").isSome = true ↔
      ∃ n, atoi "255" = some n ∧ 0 ≤ n ∧ n ≤ 15) :=
  paramBounds "11223344" [0x11, 0x22, 0x33, 0x44] "255" (by decide) (by decide)

/-- Witness for claim C10 at interval 256, whose interval byte wraps
to `0x00`. -/
theorem setServer_frame_witness :
    CreateCommand "set_server" "11223344" "256" =
      some ([0x00, 0x1b, 0x63, 0x01, xorChecksum (setServerPayload 256)]
            ++ [0x11, 0x22, 0x33, 0x44] ++ setServerPayload 256)
    ∧ goByte 256 = 0x00 :=
  ⟨setServer_frame "11223344" "256" [0x11, 0x22, 0x33, 0x44] 256
    (by decide) (by decide) (by decide) (by decide), by decide⟩
